import Mathlib

/-!
Verification development for the Gong call-transcript search tool
(`tool.py`, class `GongSearchTool`).

The Python code is shallowly embedded as executable Lean functions.
Outbound HTTP traffic is modelled by an explicit environment: a finite
list of `HttpResponse` values consumed one per issued request, together
with an event trace recording every request issued and every rate-limit
sleep performed.  Running out of responses models the transport raising
an exception (caught by the broad `except` clause of `invoke`).

JSON dictionaries coming from the API are modelled as records whose
`Option` fields stand for possibly-absent keys, with the same `.get`
defaults as the source.  The result dictionaries built by the code are
modelled as ordered association lists so that the exact key names the
code emits are part of the model.
-/

namespace Gong

/-- Python `c in s` for a single-character needle `c`. -/
def pyInStr (c : Char) (s : String) : Bool := decide (c ∈ s.data)

/-- Python `len(s)`: the number of code points of `s`. -/
def pyLen (s : String) : Nat := s.data.length

/-- Python `s[:n]` for a nonnegative `n`: the first `n` code points. -/
def pySliceStr (s : String) (n : Nat) : String := String.mk (s.data.take n)

/-- Python `xs[:n]` for an `int` bound `n` (negative bounds count from
the end, clamped at zero, as in Python slicing). -/
def pySliceTo {α : Type} (xs : List α) (n : Int) : List α :=
  if 0 ≤ n then xs.take n.toNat else xs.take ((xs.length : Int) + n).toNat

/-- Truthiness of an optional string (Python: `None` and `""` are falsy). -/
def pyTruthy (o : Option String) : Bool := o.getD "" ≠ ""

/-- Python `str(x)` rendering of an optional string (an absent value
interpolates as the literal `None` inside an f-string). -/
def pyStr (o : Option String) : String := o.getD "None"

/-- `requests.Response.raise_for_status` raises exactly for 4xx and 5xx. -/
def raisesForStatus (s : Nat) : Bool := 400 ≤ s && s < 600

/-- Python `s.split(sep)` for a single-character separator, over the
code points of `s` (e.g. `"a-b".split("-") = ["a", "b"]` and
`"".split("-") = [""]`). -/
def splitOnChar (c : Char) : List Char → List (List Char)
  | [] => [[]]
  | x :: xs =>
    let r := splitOnChar c xs
    if x = c then [] :: r
    else
      match r with
      | [] => [[x]]
      | y :: ys => (x :: y) :: ys

def isPrefixList : List Char → List Char → Bool
  | [], _ => true
  | _ :: _, [] => false
  | p :: ps, x :: xs => p = x && isPrefixList ps xs

/-- Worker for `pyReplace`; the fuel starts at the length of the list
and each step consumes at least one character, so it never runs out
(the pattern is nonempty at the single use site). -/
def replaceGo (pat repl : List Char) : Nat → List Char → List Char
  | _, [] => []
  | 0, l => l
  | fuel + 1, x :: xs =>
    if isPrefixList pat (x :: xs) then
      repl ++ replaceGo pat repl fuel (List.drop (pat.length - 1) xs)
    else x :: replaceGo pat repl fuel xs

/-- Python `s.replace(pat, repl)`: replace all non-overlapping
occurrences, left to right (used with the nonempty pattern `"api."`). -/
def pyReplace (s pat repl : String) : String :=
  String.mk (replaceGo pat.data repl.data s.data.length s.data)

/-- Python `sep.join(xs)`. -/
def pyJoin (sep : String) : List String → String
  | [] => ""
  | [x] => x
  | x :: xs => x ++ sep ++ pyJoin sep xs

/-- The UTF-8 encoding of one code point (Python `str.encode()`). -/
def utf8Bytes (c : Char) : List Nat :=
  let n := c.toNat
  if n < 128 then [n]
  else if n < 2048 then [192 + n / 64, 128 + n % 64]
  else if n < 65536 then [224 + n / 4096, 128 + (n / 64) % 64, 128 + n % 64]
  else [240 + n / 262144, 128 + (n / 4096) % 64, 128 + (n / 64) % 64, 128 + n % 64]

/-- The UTF-8 bytes of a string. -/
def strToUTF8 (s : String) : List Nat := (s.data.map utf8Bytes).flatten

/-- The base64 alphabet used by `base64.b64encode`. -/
def base64Alphabet : List Char :=
  "ABCDEFGHIJKLMNOPQRSTUVWXYZabcdefghijklmnopqrstuvwxyz0123456789+/".data

def b64char (n : Nat) : Char := base64Alphabet.getD n 'A'

/-- Standard base64 of a byte sequence, with `=` padding. -/
def base64EncodeBytes : List Nat → List Char
  | n1 :: n2 :: n3 :: rest =>
    b64char (n1 / 4) :: b64char ((n1 % 4) * 16 + n2 / 16) ::
    b64char ((n2 % 16) * 4 + n3 / 64) :: b64char (n3 % 64) ::
    base64EncodeBytes rest
  | [n1, n2] =>
    [b64char (n1 / 4), b64char ((n1 % 4) * 16 + n2 / 16),
     b64char ((n2 % 16) * 4), '=']
  | [n1] =>
    [b64char (n1 / 4), b64char ((n1 % 4) * 16), '=', '=']
  | [] => []

/-- Python `base64.b64encode(s.encode()).decode()`. -/
def base64Encode (s : String) : String :=
  String.mk (base64EncodeBytes (strToUTF8 s))

/-- Leap years of the proleptic Gregorian calendar (`datetime` module). -/
def isLeapYear (y : Nat) : Bool := y % 4 = 0 && (y % 100 ≠ 0 || y % 400 = 0)

def daysInMonth (y m : Nat) : Nat :=
  if m = 2 then (if isLeapYear y then 29 else 28)
  else if m = 4 || m = 6 || m = 9 || m = 11 then 30
  else 31

def digitsToNat (cs : List Char) : Nat :=
  cs.foldl (fun a c => a * 10 + (c.toNat - 48)) 0

/-- Python `datetime.datetime.strptime(s, "%Y-%m-%d")`, returning the
parsed `(year, month, day)` or `none` when a `ValueError` is raised.
CPython compiles the format to the regex `\d\d\d\d - (1[0-2]|0[1-9]|[1-9])
- (3[01]|[12]\d|0[1-9]|[1-9])` (dashes literal), requires it to consume
the whole string, and then `datetime(year, month, day)` validates
`1 ≤ year` and the day against the month length.  Since the numeric
tokens contain no dashes, a successful match is exactly a split of the
string on `-` into three all-digit parts with the lengths and value
ranges below. -/
def strptimeYMD (s : String) : Option (Nat × Nat × Nat) :=
  match splitOnChar '-' s.data with
  | [ys, ms, ds] =>
    if ys.length = 4 && ys.all Char.isDigit &&
       1 ≤ ms.length && ms.length ≤ 2 && ms.all Char.isDigit &&
       1 ≤ ds.length && ds.length ≤ 2 && ds.all Char.isDigit then
      let y := digitsToNat ys
      let m := digitsToNat ms
      let d := digitsToNat ds
      if 1 ≤ y && 1 ≤ m && m ≤ 12 && 1 ≤ d && d ≤ daysInMonth y m then
        some (y, m, d)
      else none
    else none
  | _ => none

/-- Zero-padding to two digits, as `strftime` does for `%m` and `%d`. -/
def pad2 (n : Nat) : String := if n < 10 then "0" ++ toString n else toString n

/-- `strftime("%Y")` on glibc renders the year unpadded (years parsed
from a four-digit token are at least 1, so at most 9999). -/
def strftimeYear (n : Nat) : String := toString n

/-- The ISO-shape test of `_format_datetime`:
`"T" in s and ("Z" in s or "+" in s or "-" in s.split("T")[1])`. -/
def isoShape (s : String) : Bool :=
  pyInStr 'T' s &&
    (pyInStr 'Z' s || pyInStr '+' s ||
      decide ('-' ∈ (splitOnChar 'T' s.data).getD 1 []))

/-- `GongSearchTool._format_datetime`: `None`/empty pass to `None`; an
ISO-shaped string passes through unchanged; otherwise a string accepted
by `strptime("%Y-%m-%d")` is re-rendered as `%Y-%m-%dT00:00:00Z`; a
`ValueError` is caught and yields `None` (logged, not fatal). -/
def _format_datetime (date_str : Option String) : Option String :=
  match date_str with
  | none => none
  | some s =>
    if s = "" then none
    else if isoShape s then some s
    else
      match strptimeYMD s with
      | some (y, m, d) =>
          some (strftimeYear y ++ "-" ++ pad2 m ++ "-" ++ pad2 d ++ "T00:00:00Z")
      | none => none

/-! ## Data model: configuration, input arguments, API payloads -/

/-- The tool configuration mapping; `Option` fields model key presence
(the `in self.config` membership tests of the source). -/
structure Config where
  gong_access_key : Option String
  gong_access_key_secret : Option String
  gong_bearer_token : Option String
  gong_base_url : Option String
deriving DecidableEq

/-- The `input["input"]` argument dictionary of `invoke`. -/
structure Args where
  q : Option String
  from_date : Option String
  to_date : Option String
  limit : Option Int
  workspace_id : Option String
deriving DecidableEq

/-- The optional `dateRange` block of the search payload; `fromDate` and
`toDate` model the JSON keys `from` and `to`, present only when the
corresponding normalized date is truthy. -/
structure DateFilter where
  fromDate : Option String
  toDate : Option String
deriving DecidableEq

/-- The `filter` block of the search payload. -/
structure SearchFilter where
  keywords : String
  dateRange : Option DateFilter
  workspaceId : Option String
deriving DecidableEq

/-- The JSON body POSTed to `/v2/calls/search`; `cursor` is present only
on pagination requests. -/
structure SearchPayload where
  filter : SearchFilter
  limit : Int
  cursor : Option String
deriving DecidableEq

/-- `call["content"]["contextWorkspace"]` as far as the code reads it. -/
structure ContextWorkspace where
  name : Option String
deriving DecidableEq

structure CallContent where
  contextWorkspace : Option ContextWorkspace
deriving DecidableEq

/-- One element of the `calls` array of a search response, restricted to
the keys the code reads; a party dictionary is read only through
`party.get("name", "Unknown")`, so it is modelled by its optional name. -/
structure Call where
  id : Option String
  title : Option String
  startTime : Option String
  duration : Option Int
  parties : List (Option String)
  content : Option CallContent
deriving DecidableEq

/-- One element of the `transcript` array of a transcript response. -/
structure Segment where
  speakerName : Option String
  text : Option String
deriving DecidableEq

/-- An upstream HTTP response.  `retryAfter` is the integer value of the
`Retry-After` header when present.  `calls`, `cursor` and `transcript`
are the duck-typed projections the code takes of the parsed JSON body,
with their `.get` defaults: `json.get("calls", [])`,
`json.get("records", {}).get("cursor")` and `json.get("transcript", [])`. -/
structure HttpResponse where
  status : Nat
  retryAfter : Option Nat
  calls : List Call
  cursor : Option String
  transcript : List Segment
deriving DecidableEq

/-! ## Requests, events and errors -/

/-- An outbound HTTP request; the `String` after the payload or url is
the value of the `Authorization` header used. -/
inductive Request where
  | post (url : String) (payload : SearchPayload) (auth : String)
  | get (url : String) (auth : String)
deriving DecidableEq

/-- Observable effects: a request being issued, or `time.sleep(n)`. -/
inductive Event where
  | request (r : Request)
  | sleep (seconds : Nat)
deriving DecidableEq

/-- Exceptions that the `try` block of `invoke` can catch:
`requests.exceptions.HTTPError` raised by `raise_for_status`, or any
other exception (here: the transport failing because the modelled
response environment is exhausted). -/
inductive PyErr where
  | httpError (status : Nat)
  | connectionError
deriving DecidableEq

/-- JSON values appearing in a result record. -/
inductive JVal where
  | s (v : String)
  | i (v : Int)
  | strList (v : List String)
  | null
deriving DecidableEq

/-- A result dictionary, as an ordered association list of JSON keys. -/
abbrev ResultRec := List (String × JVal)

/-- A citation item for the host UI (`source_item` in the source). -/
structure SourceItem where
  type : String
  title : String
  url : String
  htmlSnippet : String
deriving DecidableEq

structure SourceBlock where
  toolCallDescription : String
  items : List SourceItem
deriving DecidableEq

/-- The envelope returned by `invoke`: on success `sources` is present
and `error` absent; on failure `output` is empty and `error` present. -/
structure Envelope where
  output : List ResultRec
  sources : Option (List SourceBlock)
  error : Option String
deriving DecidableEq

/-! ## The adapter -/

/-- The `ValueError` message of `_get_auth_header` (quote characters of
the original message elided). -/
def configErrorMsg : String :=
  "Gong API credentials not properly configured. Please set either gong_access_key and gong_access_key_secret for Basic auth, or gong_bearer_token for OAuth."

/-- `GongSearchTool._get_auth_header`: Basic auth from the base64 of
`key:secret` when both keys are configured, else Bearer auth, else a
`ValueError`. -/
def _get_auth_header (config : Config) : Except String String :=
  match config.gong_access_key, config.gong_access_key_secret with
  | some access_key, some access_key_secret =>
      .ok ("Basic " ++ base64Encode (access_key ++ ":" ++ access_key_secret))
  | _, _ =>
      match config.gong_bearer_token with
      | some t => .ok ("Bearer " ++ t)
      | none => .error configErrorMsg

/-- `GongSearchTool._handle_rate_limit`: on a 429 sleep for the
`Retry-After` value (default 1) and report `true`, else `false`.
The second component is the list of sleep events performed. -/
def _handle_rate_limit (r : HttpResponse) : Bool × List Event :=
  if r.status = 429 then (true, [Event.sleep (r.retryAfter.getD 1)]) else (false, [])

/-- The bounded retry loop used (twice, verbatim) in the source — lines
154–163 for the search request and 209–215 for the transcript request:
`while _handle_rate_limit(resp) and retry_count < max_retries: resp =
<same request>; retry_count += 1` with `max_retries = 3`.  `resp` is the
response already in hand; each re-issued request consumes the next
environment entry.  Returns the final response (or the exception when
the transport fails), the remaining environment and the events emitted
from this point on. -/
def retryLoop429 (req : Request) (resp : HttpResponse) (retry_count : Nat)
    (env : List HttpResponse) :
    Except PyErr HttpResponse × List HttpResponse × List Event :=
  let hrl := _handle_rate_limit resp
  if hrl.1 ∧ retry_count < 3 then
    match env with
    | [] => (.error .connectionError, [], hrl.2 ++ [Event.request req])
    | r :: env' =>
      let rec' := retryLoop429 req r (retry_count + 1) env'
      (rec'.1, rec'.2.1, hrl.2 ++ Event.request req :: rec'.2.2)
  else (.ok resp, env, hrl.2)

/-- Issue a request and run the bounded 429 retry loop on its response
(`retry_count` starting at 0). -/
def issueWithRetry (req : Request) (env : List HttpResponse) :
    Except PyErr HttpResponse × List HttpResponse × List Event :=
  match env with
  | [] => (.error .connectionError, [], [Event.request req])
  | r :: env' =>
    let res := retryLoop429 req r 0 env'
    (res.1, res.2.1, Event.request req :: res.2.2)

/-- The pagination loop of `invoke` (lines 171–192): while a cursor is
present and fewer than `limit` calls are accumulated, POST the original
payload with the cursor attached; a 429 sleeps and `continue`s (same
cursor, no retry cap); otherwise `raise_for_status`, extend the call
list and take the next cursor from the response. -/
def paginationLoop (search_url : String) (payload : SearchPayload) (auth : String)
    (all_calls : List Call) (cursor : Option String) (limit : Int)
    (env : List HttpResponse) :
    Except PyErr (List Call) × List HttpResponse × List Event :=
  match cursor with
  | none => (.ok all_calls, env, [])
  | some c =>
    if (all_calls.length : Int) < limit then
      let pagination_payload := { payload with cursor := some c }
      let req := Request.post search_url pagination_payload auth
      match env with
      | [] => (.error .connectionError, [], [Event.request req])
      | r :: env' =>
        let hrl := _handle_rate_limit r
        if hrl.1 then
          let res := paginationLoop search_url payload auth all_calls (some c) limit env'
          (res.1, res.2.1, Event.request req :: (hrl.2 ++ res.2.2))
        else if raisesForStatus r.status then
          (.error (.httpError r.status), env', [Event.request req])
        else
          let res := paginationLoop search_url payload auth (all_calls ++ r.calls)
            r.cursor limit env'
          (res.1, res.2.1, Event.request req :: res.2.2)
    else (.ok all_calls, env, [])

/-- The transcript text computed for one call (lines 217–233): the
sentinel unless the response status is 200, in which case the segments
with truthy text are joined as `"{speaker}: {text}"` lines. -/
def transcriptText (tresp : HttpResponse) : String :=
  if tresp.status = 200 then
    pyJoin "\n" (tresp.transcript.filterMap (fun segment =>
      let speaker := segment.speakerName.getD "Unknown"
      let text := segment.text.getD ""
      if text ≠ "" then some (speaker ++ ": " ++ text) else none))
  else "No transcript available"

/-- The result dictionary built for one call (lines 236–257), in the
key order of the source; `context` is appended iff `"content" in call`. -/
def buildResult (base_url : String) (call : Call) (transcript : String) : ResultRec :=
  [("callId", match call.id with | some s => JVal.s s | none => JVal.null),
   ("title", JVal.s (call.title.getD "Untitled Call")),
   ("date", JVal.s (call.startTime.getD "")),
   ("duration", JVal.i (call.duration.getD 0)),
   ("parties", JVal.strList (call.parties.map (fun p => p.getD "Unknown"))),
   ("snippet", JVal.s (if 200 < pyLen transcript
                       then pySliceStr transcript 200 ++ "..."
                       else transcript)),
   ("url", JVal.s (pyReplace base_url "api." "" ++ "/call/" ++ pyStr call.id))]
  ++ (match call.content with
      | some content =>
        [("context", JVal.s (match content.contextWorkspace with
                             | some cw => cw.name.getD ""
                             | none => ""))]
      | none => [])

/-- The citation item built for one call (lines 262–267). -/
def buildSourceItem (base_url : String) (call : Call) : SourceItem :=
  { type := "SIMPLE_DOCUMENT",
    title := call.title.getD "Untitled Call",
    url := pyReplace base_url "api." "" ++ "/call/" ++ pyStr call.id,
    htmlSnippet := "<b>Date:</b> " ++ call.startTime.getD "" ++
      "<br><b>Duration:</b> " ++ toString (call.duration.getD 0) ++
      " seconds<br><b>Participants:</b> " ++
      pyJoin ", " (call.parties.map (fun p => p.getD "Unknown")) }

/-- Per-call transcript fetch and record assembly (lines 201–268, one
iteration): GET the transcript with the bounded 429 retry, then build
the result record and citation item.  No `raise_for_status` is applied
to the transcript response. -/
def processCall (base_url auth : String) (call : Call) (env : List HttpResponse) :
    Except PyErr (ResultRec × SourceItem) × List HttpResponse × List Event :=
  let transcript_url := base_url ++ "/v2/calls/" ++ pyStr call.id ++ "/transcript"
  let res := issueWithRetry (Request.get transcript_url auth) env
  match res.1 with
  | .error e => (.error e, res.2.1, res.2.2)
  | .ok tresp =>
    let transcript := transcriptText tresp
    (.ok (buildResult base_url call transcript, buildSourceItem base_url call),
     res.2.1, res.2.2)

/-- The `for call in all_calls` loop of `invoke`, accumulating result
records and citation items in order. -/
def transcriptLoop (base_url auth : String) :
    List Call → List HttpResponse →
    Except PyErr (List ResultRec × List SourceItem) × List HttpResponse × List Event
  | [], env => (.ok ([], []), env, [])
  | call :: rest, env =>
    let pr := processCall base_url auth call env
    match pr.1 with
    | .error e => (.error e, pr.2.1, pr.2.2)
    | .ok (record, item) =>
      let tr := transcriptLoop base_url auth rest pr.2.1
      match tr.1 with
      | .error e => (.error e, tr.2.1, pr.2.2 ++ tr.2.2)
      | .ok (recs, items) =>
        (.ok (record :: recs, item :: items), tr.2.1, pr.2.2 ++ tr.2.2)

/-- The envelope returned by the two `except` clauses of `invoke`; the
rendering of the exception text after the fixed prefix is abstracted. -/
def errorEnvelope : PyErr → Envelope
  | .httpError st =>
      { output := [], sources := none,
        error := some ("HTTP error occurred: status " ++ toString st) }
  | .connectionError =>
      { output := [], sources := none,
        error := some "An error occurred: connection error" }

def defaultBaseUrl : String := "https://us-13359.api.gong.io"

/-- The search payload built by `invoke` from the (normalized) inputs:
`{filter: {keywords, dateRange?, workspaceId?}, limit}`. -/
def buildPayload (query : String) (from_date to_date workspace_id : Option String)
    (limit : Int) : SearchPayload :=
  { filter :=
      { keywords := query,
        dateRange :=
          if pyTruthy from_date || pyTruthy to_date then
            some { fromDate := if pyTruthy from_date then from_date else none,
                   toDate := if pyTruthy to_date then to_date else none }
          else none,
        workspaceId := if pyTruthy workspace_id then workspace_id else none },
    limit := limit, cursor := none }

/-- `GongSearchTool.invoke`, returning the result envelope together with
the trace of requests issued and sleeps performed. -/
def invoke (config : Config) (args : Args) (env : List HttpResponse) :
    Envelope × List Event :=
  let query := args.q.getD ""
  let from_date := _format_datetime args.from_date
  let to_date := _format_datetime args.to_date
  let limit := args.limit.getD 10
  let base_url := config.gong_base_url.getD defaultBaseUrl
  match _get_auth_header config with
  | .error e => ({ output := [], sources := none, error := some e }, [])
  | .ok auth =>
    let search_url := base_url ++ "/v2/calls/search"
    let payload := buildPayload query from_date to_date args.workspace_id limit
    let r1 := issueWithRetry (Request.post search_url payload auth) env
    match r1.1 with
    | .error e => (errorEnvelope e, r1.2.2)
    | .ok search_response =>
      if raisesForStatus search_response.status then
        (errorEnvelope (.httpError search_response.status), r1.2.2)
      else
        let r2 := paginationLoop search_url payload auth search_response.calls
          search_response.cursor limit r1.2.1
        match r2.1 with
        | .error e => (errorEnvelope e, r1.2.2 ++ r2.2.2)
        | .ok all_calls =>
          let retained := pySliceTo all_calls limit
          let r3 := transcriptLoop base_url auth retained r2.2.1
          match r3.1 with
          | .error e => (errorEnvelope e, r1.2.2 ++ r2.2.2 ++ r3.2.2)
          | .ok (results, source_items) =>
            ({ output := results,
               sources := some [{ toolCallDescription := "Searched Gong for: " ++ query,
                                  items := source_items }],
               error := none },
             r1.2.2 ++ r2.2.2 ++ r3.2.2)

/-! ## Auxiliary definitions for the statements -/

/-- Follows the words of the spec, for comparison with the source: a
string literally of the shape `YYYY-MM-DD` — four digits, a dash, two
digits, a dash, two digits. -/
def specMatchesYMD (s : String) : Bool :=
  match splitOnChar '-' s.data with
  | [ys, ms, ds] =>
    ys.length = 4 && ys.all Char.isDigit &&
    ms.length = 2 && ms.all Char.isDigit &&
    ds.length = 2 && ds.all Char.isDigit
  | _ => false

/-- The number of requests in an event trace. -/
def countReqs (evs : List Event) : Nat :=
  (evs.filter (fun e => match e with | .request _ => true | .sleep _ => false)).length

/-- The event is not a request carrying an Authorization value other
than `auth`. -/
def eventAuth (auth : String) : Event → Prop
  | .request (.post _ _ a) => a = auth
  | .request (.get _ a) => a = auth
  | .sleep _ => True

/-- Sample inputs for concrete witnesses and counterexamples. -/
def sampleConfig : Config :=
  { gong_access_key := none, gong_access_key_secret := none,
    gong_bearer_token := some "tok", gong_base_url := none }

def sampleConfigKS : Config :=
  { gong_access_key := some "k", gong_access_key_secret := some "s",
    gong_bearer_token := none, gong_base_url := none }

def sampleConfigNone : Config :=
  { gong_access_key := none, gong_access_key_secret := none,
    gong_bearer_token := none, gong_base_url := none }

def sampleArgs : Args :=
  { q := some "hello", from_date := none, to_date := none,
    limit := some 2, workspace_id := none }

def sampleCall : Call :=
  { id := some "c1", title := some "Call 1",
    startTime := some "2024-01-01T10:00:00Z", duration := some 60,
    parties := [some "Alice", none], content := none }

/-- A search response carrying one call and no pagination cursor. -/
def sampleSearchResp : HttpResponse :=
  { status := 200, retryAfter := none, calls := [sampleCall],
    cursor := none, transcript := [] }

/-- A 200 transcript response with an empty segment list. -/
def sampleEmptyTranscriptResp : HttpResponse :=
  { status := 200, retryAfter := none, calls := [], cursor := none,
    transcript := [] }

/-- A 429 response with `Retry-After: 2`. -/
def sample429 : HttpResponse :=
  { status := 429, retryAfter := some 2, calls := [], cursor := none,
    transcript := [] }

/-- A 404 response. -/
def sample404 : HttpResponse :=
  { status := 404, retryAfter := none, calls := [], cursor := none,
    transcript := [] }

def samplePayload : SearchPayload := buildPayload "hello" none none none 2

/-- A 429 response with no `Retry-After` header. -/
def sample429NoHeader : HttpResponse :=
  { status := 429, retryAfter := none, calls := [], cursor := none,
    transcript := [] }

def sampleArgsNoQ : Args :=
  { q := none, from_date := none, to_date := none,
    limit := some 2, workspace_id := none }

def longTranscript : String := String.mk (List.replicate 250 'a')

def shortTranscript : String := String.mk (List.replicate 150 'a')

/-! ## General lemmas about the embedding -/

theorem data_append (a b : String) : (a ++ b).data = a.data ++ b.data := rfl

theorem pyInStr_append (c : Char) (a b : String) :
    pyInStr c (a ++ b) = (pyInStr c a || pyInStr c b) := by
  simp [pyInStr, data_append, List.mem_append]

theorem pyInStr_ne_empty {c : Char} {s : String} (h : pyInStr c s = true) :
    s ≠ "" := by
  intro he
  subst he
  simp [pyInStr] at h

theorem isoShape_ne_empty {s : String} (h : isoShape s = true) : s ≠ "" := by
  intro he
  subst he
  simp [isoShape, pyInStr] at h

/-- Every record list produced by a successful transcript loop has one
record per retained call. -/
theorem transcriptLoop_length (b a : String) :
    ∀ (calls : List Call) (env : List HttpResponse) recs items,
      (transcriptLoop b a calls env).1 = .ok (recs, items) →
      recs.length = calls.length := by
  intro calls
  induction calls with
  | nil =>
    intro env recs items h
    simp only [transcriptLoop] at h
    cases h
    rfl
  | cons call rest ih =>
    intro env recs items h
    simp only [transcriptLoop] at h
    rcases hp : (processCall b a call env).1 with e | ⟨record, item⟩ <;> rw [hp] at h
    · cases h
    · rcases ht : (transcriptLoop b a rest (processCall b a call env).2.1).1 with
        e | ⟨recs', items'⟩ <;> rw [ht] at h
      · cases h
      · cases h
        simp [ih _ _ _ ht]

/-- Every record produced by a successful transcript loop is a
`buildResult` of one of the calls. -/
theorem transcriptLoop_mem (b a : String) :
    ∀ (calls : List Call) (env : List HttpResponse) recs items,
      (transcriptLoop b a calls env).1 = .ok (recs, items) →
      ∀ rec ∈ recs, ∃ call t, call ∈ calls ∧ rec = buildResult b call t := by
  intro calls
  induction calls with
  | nil =>
    intro env recs items h
    simp only [transcriptLoop] at h
    cases h
    intro rec hrec
    cases hrec
  | cons call rest ih =>
    intro env recs items h
    simp only [transcriptLoop] at h
    rcases hp : (processCall b a call env).1 with e | ⟨record, item⟩ <;> rw [hp] at h
    · cases h
    · rcases ht : (transcriptLoop b a rest (processCall b a call env).2.1).1 with
        e | ⟨recs', items'⟩ <;> rw [ht] at h
      · cases h
      · cases h
        intro rec hrec
        rcases List.mem_cons.mp hrec with hrec | hrec
        · -- head record: comes from processCall
          simp only [processCall] at hp
          rcases hi : (issueWithRetry
              (Request.get (b ++ "/v2/calls/" ++ pyStr call.id ++ "/transcript") a)
              env).1 with e | tresp <;> rw [hi] at hp
          · cases hp
          · cases hp
            exact ⟨call, transcriptText tresp, List.mem_cons_self _ _, hrec⟩
        · rcases ih _ _ _ ht rec hrec with ⟨c, t, hc, hrt⟩
          exact ⟨c, t, List.mem_cons_of_mem _ hc, hrt⟩

/-- Every event of the bounded retry loop is a sleep or a re-issue of
the identical request. -/
theorem retryLoop429_events (req : Request) :
    ∀ (env : List HttpResponse) (r : HttpResponse) (rc : Nat),
      ∀ e ∈ (retryLoop429 req r rc env).2.2,
        (∃ n, e = Event.sleep n) ∨ e = Event.request req := by
  intro env
  induction env with
  | nil =>
    intro r rc e he
    simp only [retryLoop429, _handle_rate_limit] at he
    by_cases h429 : r.status = 429 <;>
      by_cases hrc : rc < 3 <;>
      simp [h429, hrc] at he
    · rcases he with he | he <;> simp [he]
    · simp [he]
  | cons r' env' ih =>
    intro r rc e he
    simp only [retryLoop429, _handle_rate_limit] at he
    by_cases h429 : r.status = 429 <;>
      by_cases hrc : rc < 3 <;>
      simp [h429, hrc] at he
    · rcases he with he | he | he
      · simp [he]
      · simp [he]
      · exact ih r' (rc + 1) e he
    · simp [he]

theorem issueWithRetry_events (req : Request) (env : List HttpResponse) :
    ∀ e ∈ (issueWithRetry req env).2.2,
      (∃ n, e = Event.sleep n) ∨ e = Event.request req := by
  cases env with
  | nil => intro e he; simp [issueWithRetry] at he; simp [he]
  | cons r env' =>
    intro e he
    simp only [issueWithRetry] at he
    rcases List.mem_cons.mp he with he | he
    · simp [he]
    · exact retryLoop429_events req env' r 0 e he

set_option maxRecDepth 4000 in
/-- Every event of the pagination loop is a sleep or a POST to the
search url with the given Authorization value. -/
theorem paginationLoop_events (u : String) (p : SearchPayload) (a : String) :
    ∀ (env : List HttpResponse) (calls : List Call) (cursor : Option String) (L : Int),
      ∀ e ∈ (paginationLoop u p a calls cursor L env).2.2,
        (∃ n, e = Event.sleep n) ∨ ∃ pl, e = Event.request (Request.post u pl a) := by
  intro env
  induction env with
  | nil =>
    intro calls cursor L e he
    cases cursor with
    | none => simp [paginationLoop] at he
    | some c =>
      simp only [paginationLoop] at he
      by_cases hlt : (calls.length : Int) < L <;> simp [hlt] at he
      simp [he]
  | cons r env' ih =>
    intro calls cursor L e he
    cases cursor with
    | none => simp [paginationLoop] at he
    | some c =>
      rw [paginationLoop.eq_def] at he
      simp only [_handle_rate_limit] at he
      by_cases hlt : (calls.length : Int) < L <;> simp [hlt] at he
      by_cases h429 : r.status = 429 <;> simp [h429] at he
      · rcases he with he | he | he
        · simp [he]
        · simp [he]
        · exact ih _ _ _ e he
      · by_cases hrs : raisesForStatus r.status = true <;> simp [hrs] at he
        · simp [he]
        · rcases he with he | he
          · simp [he]
          · exact ih _ _ _ e he

/-- Every event of the per-call processing is a sleep or a GET carrying
the given Authorization value. -/
theorem processCall_events (b a : String) (call : Call) (env : List HttpResponse) :
    ∀ e ∈ (processCall b a call env).2.2,
      (∃ n, e = Event.sleep n) ∨ ∃ u, e = Event.request (Request.get u a) := by
  intro e he
  simp only [processCall] at he
  rcases hi : (issueWithRetry
      (Request.get (b ++ "/v2/calls/" ++ pyStr call.id ++ "/transcript") a) env).1 with
    er | tresp <;> rw [hi] at he <;> simp at he <;>
    rcases issueWithRetry_events _ _ e he with h | h
  · exact Or.inl h
  · exact Or.inr ⟨_, h⟩
  · exact Or.inl h
  · exact Or.inr ⟨_, h⟩

theorem transcriptLoop_events (b a : String) :
    ∀ (calls : List Call) (env : List HttpResponse),
      ∀ e ∈ (transcriptLoop b a calls env).2.2,
        (∃ n, e = Event.sleep n) ∨ ∃ u, e = Event.request (Request.get u a) := by
  intro calls
  induction calls with
  | nil => intro env e he; simp [transcriptLoop] at he
  | cons call rest ih =>
    intro env e he
    simp only [transcriptLoop] at he
    rcases hp : (processCall b a call env).1 with er | ⟨record, item⟩ <;> rw [hp] at he
    · exact processCall_events b a call env e he
    · rcases ht : (transcriptLoop b a rest (processCall b a call env).2.1).1 with
        er | ⟨recs, items⟩ <;> rw [ht] at he <;>
        rcases List.mem_append.mp he with he | he
      · exact processCall_events b a call env e he
      · exact ih _ e he
      · exact processCall_events b a call env e he
      · exact ih _ e he

theorem pySliceTo_length_le {α : Type} (xs : List α) (L : Int) (h : 0 ≤ L) :
    ((pySliceTo xs L).length : Int) ≤ L := by
  simp only [pySliceTo, if_pos h]
  calc ((xs.take L.toNat).length : Int) ≤ (L.toNat : Int) := by
        exact_mod_cast List.length_take_le _ _
    _ = L := Int.toNat_of_nonneg h

theorem issueWithRetry_trace_head (req : Request) (env : List HttpResponse) :
    ∃ tl, (issueWithRetry req env).2.2 = Event.request req :: tl := by
  cases env <;> simp [issueWithRetry]

/-- The trace of an invocation that passes authentication starts with
the initial search POST (built payload, no cursor), and every event is
a sleep, a POST to the search url, or a transcript GET, all with the
selected Authorization value. -/
theorem invoke_trace (config : Config) (args : Args) (env : List HttpResponse)
    (auth : String) (hAuth : _get_auth_header config = .ok auth) :
    (∃ tl, (invoke config args env).2 =
      Event.request (Request.post
        ((config.gong_base_url.getD defaultBaseUrl) ++ "/v2/calls/search")
        (buildPayload (args.q.getD "") (_format_datetime args.from_date)
          (_format_datetime args.to_date) args.workspace_id (args.limit.getD 10))
        auth) :: tl) ∧
    (∀ e ∈ (invoke config args env).2,
      (∃ n, e = Event.sleep n) ∨
      (∃ pl, e = Event.request (Request.post
        ((config.gong_base_url.getD defaultBaseUrl) ++ "/v2/calls/search") pl auth)) ∨
      (∃ u, e = Event.request (Request.get u auth))) := by
  constructor
  · obtain ⟨tl, htl⟩ := issueWithRetry_trace_head
      (Request.post ((config.gong_base_url.getD defaultBaseUrl) ++ "/v2/calls/search")
        (buildPayload (args.q.getD "") (_format_datetime args.from_date)
          (_format_datetime args.to_date) args.workspace_id (args.limit.getD 10))
        auth) env
    simp only [invoke, hAuth]
    split
    · exact ⟨tl, htl⟩
    · split
      · exact ⟨tl, htl⟩
      · split
        · rw [htl]
          simp only [List.cons_append]
          exact ⟨_, rfl⟩
        · split
          · rw [htl]
            simp only [List.cons_append, List.append_assoc]
            exact ⟨_, rfl⟩
          · rw [htl]
            simp only [List.cons_append, List.append_assoc]
            exact ⟨_, rfl⟩
  · intro e he
    simp only [invoke, hAuth] at he
    split at he
    · rcases issueWithRetry_events _ _ e he with h | h
      · exact Or.inl h
      · exact Or.inr (Or.inl ⟨_, h⟩)
    · split at he
      · rcases issueWithRetry_events _ _ e he with h | h
        · exact Or.inl h
        · exact Or.inr (Or.inl ⟨_, h⟩)
      · split at he
        · rcases List.mem_append.mp he with he | he
          · rcases issueWithRetry_events _ _ e he with h | h
            · exact Or.inl h
            · exact Or.inr (Or.inl ⟨_, h⟩)
          · rcases paginationLoop_events _ _ _ _ _ _ _ e he with h | ⟨pl, h⟩
            · exact Or.inl h
            · exact Or.inr (Or.inl ⟨pl, h⟩)
        · split at he
          · rcases List.mem_append.mp he with he | he
            · rcases List.mem_append.mp he with he | he
              · rcases issueWithRetry_events _ _ e he with h | h
                · exact Or.inl h
                · exact Or.inr (Or.inl ⟨_, h⟩)
              · rcases paginationLoop_events _ _ _ _ _ _ _ e he with h | ⟨pl, h⟩
                · exact Or.inl h
                · exact Or.inr (Or.inl ⟨pl, h⟩)
            · rcases transcriptLoop_events _ _ _ _ e he with h | ⟨u, h⟩
              · exact Or.inl h
              · exact Or.inr (Or.inr ⟨u, h⟩)
          · rcases List.mem_append.mp he with he | he
            · rcases List.mem_append.mp he with he | he
              · rcases issueWithRetry_events _ _ e he with h | h
                · exact Or.inl h
                · exact Or.inr (Or.inl ⟨_, h⟩)
              · rcases paginationLoop_events _ _ _ _ _ _ _ e he with h | ⟨pl, h⟩
                · exact Or.inl h
                · exact Or.inr (Or.inl ⟨pl, h⟩)
            · rcases transcriptLoop_events _ _ _ _ e he with h | ⟨u, h⟩
              · exact Or.inl h
              · exact Or.inr (Or.inr ⟨u, h⟩)

/-! ## Claims -/

/-- **C5**, counterexample.  The claim says every input that neither has
the ISO timestamp shape nor matches `YYYY-MM-DD` is normalized to
absent; but Python's lenient `%Y-%m-%d` parse accepts the non-padded
`"2024-1-15"`, which the code rewrites to `"2024-01-15T00:00:00Z"`
instead of `None`. -/
theorem C5_counterexample :
    isoShape "2024-1-15" = false ∧ specMatchesYMD "2024-1-15" = false ∧
    _format_datetime (some "2024-1-15") = some "2024-01-15T00:00:00Z" := by
  decide

/-- **C5** (amended).  Date normalization is idempotent and total: an
ISO-shaped string (contains `T` and a zone/offset marker) passes through
unchanged; `"2024-01-15"` is rewritten to `"2024-01-15T00:00:00Z"`; a
string that is not ISO-shaped and is rejected by the lenient
`strptime("%Y-%m-%d")` parse (rather than: any string not literally of
shape `YYYY-MM-DD`) is normalized to absent, not an error. -/
theorem C5_date_normalization :
    (∀ s, isoShape s = true → _format_datetime (some s) = some s) ∧
    _format_datetime (some "2024-01-15") = some "2024-01-15T00:00:00Z" ∧
    (∀ s, isoShape s = false → strptimeYMD s = none →
      _format_datetime (some s) = none) ∧
    (∀ o, _format_datetime (_format_datetime o) = _format_datetime o) := by
  refine ⟨?_, by decide, ?_, ?_⟩
  · intro s hiso
    have hne := isoShape_ne_empty hiso
    simp [_format_datetime, hne, hiso]
  · intro s hiso hp
    by_cases hne : s = ""
    · simp [_format_datetime, hne]
    · simp [_format_datetime, hne, hiso, hp]
  · intro o
    match o with
    | none => rfl
    | some s =>
      by_cases hne : s = ""
      · simp [_format_datetime, hne]
      · by_cases hiso : isoShape s
        · simp [_format_datetime, hne, hiso]
        · rcases hp : strptimeYMD s with _ | ⟨y, m, d⟩
          · simp [_format_datetime, hne, hiso, hp]
          · have hTlit : pyInStr 'T' "T00:00:00Z" = true := by decide
            have hZlit : pyInStr 'Z' "T00:00:00Z" = true := by decide
            have hT : pyInStr 'T'
                (strftimeYear y ++ "-" ++ pad2 m ++ "-" ++ pad2 d ++ "T00:00:00Z") = true := by
              simp [pyInStr_append, hTlit]
            have hZ : pyInStr 'Z'
                (strftimeYear y ++ "-" ++ pad2 m ++ "-" ++ pad2 d ++ "T00:00:00Z") = true := by
              simp [pyInStr_append, hZlit]
            have hiso2 : isoShape
                (strftimeYear y ++ "-" ++ pad2 m ++ "-" ++ pad2 d ++ "T00:00:00Z") = true := by
              simp [isoShape, hT, hZ]
            have hne2 := pyInStr_ne_empty hT
            simp [_format_datetime, hne, hiso, hp, hne2, hiso2]

/-- Witness for `C5_date_normalization` at concrete inputs. -/
theorem C5_witness :
    _format_datetime (some "2024-01-15T08:30:00+02:00") =
      some "2024-01-15T08:30:00+02:00" ∧
    _format_datetime (some "not a date") = none ∧
    _format_datetime (_format_datetime (some "2024-01-15")) =
      _format_datetime (some "2024-01-15") :=
  ⟨C5_date_normalization.1 "2024-01-15T08:30:00+02:00" (by decide),
   C5_date_normalization.2.2.1 "not a date" (by decide) (by decide),
   C5_date_normalization.2.2.2 (some "2024-01-15")⟩

/-- **C3**.  If both key and secret are configured, a Basic header from
the base64 of `key:secret` is selected; else a configured bearer token
yields a Bearer header; else `invoke` fails before any HTTP request
with an empty output and a non-empty configuration-error message, and
the event trace is empty.  When authentication succeeds, every issued
request carries the selected header. -/
theorem C3_auth_selection :
    (∀ config k s, config.gong_access_key = some k →
        config.gong_access_key_secret = some s →
        _get_auth_header config = .ok ("Basic " ++ base64Encode (k ++ ":" ++ s))) ∧
    (∀ config t,
        (config.gong_access_key.isSome = false ∨
         config.gong_access_key_secret.isSome = false) →
        config.gong_bearer_token = some t →
        _get_auth_header config = .ok ("Bearer " ++ t)) ∧
    (∀ config args env,
        (config.gong_access_key.isSome = false ∨
         config.gong_access_key_secret.isSome = false) →
        config.gong_bearer_token = none →
        (invoke config args env).1.output = [] ∧
        (invoke config args env).1.error = some configErrorMsg ∧
        configErrorMsg ≠ "" ∧
        (invoke config args env).2 = []) ∧
    (∀ config args env auth, _get_auth_header config = .ok auth →
        ∀ e ∈ (invoke config args env).2, eventAuth auth e) := by
  have hdr : ∀ (config : Config),
      (config.gong_access_key.isSome = false ∨
       config.gong_access_key_secret.isSome = false) →
      _get_auth_header config =
        (match config.gong_bearer_token with
         | some t => .ok ("Bearer " ++ t)
         | none => .error configErrorMsg) := by
    intro config hks
    rcases hk : config.gong_access_key with _ | k
    · rcases hs : config.gong_access_key_secret with _ | s <;>
        simp [_get_auth_header, hk, hs]
    · rcases hs : config.gong_access_key_secret with _ | s
      · simp [_get_auth_header, hk, hs]
      · exfalso
        rcases hks with h | h
        · rw [hk] at h; simp at h
        · rw [hs] at h; simp at h
  refine ⟨?_, ?_, ?_, ?_⟩
  · intro config k s h1 h2
    simp [_get_auth_header, h1, h2]
  · intro config t hks hb
    rw [hdr config hks, hb]
  · intro config args env hks hb
    have h := hdr config hks
    rw [hb] at h
    refine ⟨?_, ?_, by decide, ?_⟩ <;> simp [invoke, h]
  · intro config args env auth hAuth e he
    rcases (invoke_trace config args env auth hAuth).2 e he with
      ⟨n, rfl⟩ | ⟨pl, rfl⟩ | ⟨u, rfl⟩
    · trivial
    · simp [eventAuth]
    · simp [eventAuth]

/-- Witness for `C3_auth_selection` at concrete configurations. -/
theorem C3_witness :
    _get_auth_header sampleConfigKS = .ok ("Basic " ++ base64Encode "k:s") ∧
    _get_auth_header sampleConfig = .ok ("Bearer " ++ "tok") ∧
    (invoke sampleConfigNone sampleArgs []).2 = [] ∧
    ∀ e ∈ (invoke sampleConfig sampleArgs [sampleSearchResp]).2,
      eventAuth "Bearer tok" e :=
  ⟨C3_auth_selection.1 sampleConfigKS "k" "s" rfl rfl,
   C3_auth_selection.2.1 sampleConfig "tok" (Or.inl rfl) rfl,
   (C3_auth_selection.2.2.1 sampleConfigNone sampleArgs [] (Or.inl rfl) rfl).2.2.2,
   C3_auth_selection.2.2.2 sampleConfig sampleArgs [sampleSearchResp] "Bearer tok" rfl⟩

theorem errorEnvelope_output (e : PyErr) : (errorEnvelope e).output = [] := by
  cases e <;> rfl

theorem errorEnvelope_sources (e : PyErr) : (errorEnvelope e).sources = none := by
  cases e <;> rfl

theorem errorEnvelope_error_ne (e : PyErr) : (errorEnvelope e).error ≠ none := by
  cases e <;> simp [errorEnvelope]

/-- **C4**.  For every `limit ≥ 0` supplied in the input and every
upstream response environment, the invocation returns at most `limit`
records (the retained call list is truncated with `[:limit]` before the
transcript loop, which produces one record per retained call). -/
theorem C4_limit_bound (config : Config) (args : Args) (env : List HttpResponse)
    (L : Int) (hL : args.limit = some L) (h0 : 0 ≤ L) :
    ((invoke config args env).1.output.length : Int) ≤ L := by
  simp only [invoke, hL, Option.getD_some]
  split
  · simpa using h0
  · split
    · simpa [errorEnvelope_output] using h0
    · split
      · simpa [errorEnvelope_output] using h0
      · split
        · simpa [errorEnvelope_output] using h0
        · split
          · simpa [errorEnvelope_output] using h0
          · rename_i results source_items heq
            have hlen := transcriptLoop_length _ _ _ _ _ _ heq
            rw [hlen]
            exact pySliceTo_length_le _ _ h0

/-- Witness for `C4_limit_bound` at a concrete invocation. -/
theorem C4_witness :
    (0 : Int) ≤ 2 ∧
    (((invoke sampleConfig sampleArgs
        [sampleSearchResp, sampleEmptyTranscriptResp]).1.output.length : Int) ≤ 2) :=
  ⟨by decide,
   C4_limit_bound sampleConfig sampleArgs
     [sampleSearchResp, sampleEmptyTranscriptResp] 2 rfl (by decide)⟩

/-- **C8**.  The invocation either succeeds (no error string) or it
returns the empty output with no sources and an error string: partial
success is never returned. -/
theorem C8_no_partial_success (config : Config) (args : Args)
    (env : List HttpResponse) :
    (invoke config args env).1.error = none ∨
    ((invoke config args env).1.output = [] ∧
     (invoke config args env).1.sources = none ∧
     (invoke config args env).1.error ≠ none) := by
  simp only [invoke]
  split
  · exact Or.inr ⟨rfl, rfl, by simp⟩
  · split
    · exact Or.inr ⟨errorEnvelope_output _, errorEnvelope_sources _,
        errorEnvelope_error_ne _⟩
    · split
      · exact Or.inr ⟨errorEnvelope_output _, errorEnvelope_sources _,
          errorEnvelope_error_ne _⟩
      · split
        · exact Or.inr ⟨errorEnvelope_output _, errorEnvelope_sources _,
            errorEnvelope_error_ne _⟩
        · split
          · exact Or.inr ⟨errorEnvelope_output _, errorEnvelope_sources _,
              errorEnvelope_error_ne _⟩
          · exact Or.inl rfl

/-- One unfolding step of the bounded retry loop on a 429 with retries
left: sleep, re-issue, continue with the next response. -/
theorem retryLoop429_step (req : Request) (r : HttpResponse) (rc : Nat)
    (r' : HttpResponse) (env' : List HttpResponse)
    (h429 : r.status = 429) (hrc : rc < 3) :
    retryLoop429 req r rc (r' :: env') =
      ((retryLoop429 req r' (rc + 1) env').1,
       (retryLoop429 req r' (rc + 1) env').2.1,
       Event.sleep (r.retryAfter.getD 1) :: Event.request req ::
         (retryLoop429 req r' (rc + 1) env').2.2) := by
  rw [retryLoop429.eq_def]
  simp [_handle_rate_limit, h429, hrc]

/-- The bounded retry loop stops (returning the response in hand and
touching nothing) when the response is not a 429 or retries ran out. -/
theorem retryLoop429_stop (req : Request) (r : HttpResponse) (rc : Nat)
    (env : List HttpResponse) (h : r.status ≠ 429 ∨ ¬ rc < 3) :
    (retryLoop429 req r rc env).1 = .ok r ∧
    (retryLoop429 req r rc env).2.1 = env := by
  rw [retryLoop429.eq_def]
  rcases h with h | h
  · simp [_handle_rate_limit, h]
  · by_cases h429 : r.status = 429 <;> simp [_handle_rate_limit, h429, h]

/-- Four consecutive 429 responses exhaust the three retries; the last
response is used as-is. -/
theorem issueWithRetry_four429 (req : Request) (r0 r1 r2 r3 : HttpResponse)
    (env : List HttpResponse) (h0 : r0.status = 429) (h1 : r1.status = 429)
    (h2 : r2.status = 429) (_h3 : r3.status = 429) :
    (issueWithRetry req (r0 :: r1 :: r2 :: r3 :: env)).1 = .ok r3 ∧
    (issueWithRetry req (r0 :: r1 :: r2 :: r3 :: env)).2.1 = env := by
  have e3 := retryLoop429_stop req r3 3 env (Or.inr (by decide))
  simp only [issueWithRetry,
    retryLoop429_step req r0 0 r1 _ h0 (by decide),
    retryLoop429_step req r1 1 r2 _ h1 (by decide),
    retryLoop429_step req r2 2 r3 _ h2 (by decide)]
  exact ⟨e3.1, e3.2⟩

/-- A first response that is not a 429 ends the retry loop at once. -/
theorem issueWithRetry_no429 (req : Request) (r : HttpResponse)
    (env : List HttpResponse) (h : r.status ≠ 429) :
    (issueWithRetry req (r :: env)).1 = .ok r ∧
    (issueWithRetry req (r :: env)).2.1 = env ∧
    (issueWithRetry req (r :: env)).2.2 = [Event.request req] := by
  have e := retryLoop429_stop req r 0 env (Or.inl h)
  have e2 : (retryLoop429 req r 0 env).2.2 = [] := by
    rw [retryLoop429.eq_def]
    simp [_handle_rate_limit, h]
  simp only [issueWithRetry]
  exact ⟨e.1, e.2, by rw [e2]⟩

theorem countReqs_nil : countReqs [] = 0 := rfl

theorem countReqs_sleep (n : Nat) (l : List Event) :
    countReqs (Event.sleep n :: l) = countReqs l := rfl

theorem countReqs_request (r : Request) (l : List Event) :
    countReqs (Event.request r :: l) = countReqs l + 1 := by
  simp [countReqs, List.filter]

/-- One unfolding step of the pagination loop when a page is due. -/
theorem paginationLoop_step (u : String) (p : SearchPayload) (a : String)
    (calls : List Call) (c : String) (L : Int) (r : HttpResponse)
    (env : List HttpResponse) (hlt : (calls.length : Int) < L) :
    paginationLoop u p a calls (some c) L (r :: env) =
      (if r.status = 429 then
        ((paginationLoop u p a calls (some c) L env).1,
         (paginationLoop u p a calls (some c) L env).2.1,
         Event.request (Request.post u { p with cursor := some c } a) ::
           Event.sleep (r.retryAfter.getD 1) ::
           (paginationLoop u p a calls (some c) L env).2.2)
      else if raisesForStatus r.status = true then
        (.error (.httpError r.status), env,
         [Event.request (Request.post u { p with cursor := some c } a)])
      else
        ((paginationLoop u p a (calls ++ r.calls) r.cursor L env).1,
         (paginationLoop u p a (calls ++ r.calls) r.cursor L env).2.1,
         Event.request (Request.post u { p with cursor := some c } a) ::
           (paginationLoop u p a (calls ++ r.calls) r.cursor L env).2.2)) := by
  rw [paginationLoop.eq_def]
  simp only [if_pos hlt, _handle_rate_limit]
  by_cases h429 : r.status = 429 <;> simp [h429]

/-- **C1**.  While the response carries a cursor and fewer than `limit`
calls are accumulated, another search request is issued with that cursor
attached; a 429 during pagination is retried with the same cursor with
no retry cap (any number of consecutive 429s leaves the result and the
remaining environment of the loop unchanged); once the cursor is absent
or enough calls are collected, the loop stops, issuing no request and
consuming no response. -/
theorem C1_pagination :
    (∀ u p a calls c L r env, (calls.length : Int) < L →
      ∃ tl, (paginationLoop u p a calls (some c) L (r :: env)).2.2 =
        Event.request (Request.post u { p with cursor := some c } a) :: tl) ∧
    (∀ u p a calls c L r env n, r.status = 429 → (calls.length : Int) < L →
      (paginationLoop u p a calls (some c) L (List.replicate n r ++ env)).1 =
        (paginationLoop u p a calls (some c) L env).1 ∧
      (paginationLoop u p a calls (some c) L (List.replicate n r ++ env)).2.1 =
        (paginationLoop u p a calls (some c) L env).2.1) ∧
    (∀ u p a calls L env,
      paginationLoop u p a calls none L env = (.ok calls, env, [])) ∧
    (∀ u p a calls c L env, L ≤ (calls.length : Int) →
      paginationLoop u p a calls (some c) L env = (.ok calls, env, [])) := by
  refine ⟨?_, ?_, ?_, ?_⟩
  · intro u p a calls c L r env hlt
    rw [paginationLoop_step u p a calls c L r env hlt]
    by_cases h429 : r.status = 429
    · simp only [if_pos h429]
      exact ⟨_, rfl⟩
    · by_cases hrs : raisesForStatus r.status = true
      · simp only [if_neg h429, if_pos hrs]
        exact ⟨_, rfl⟩
      · simp only [if_neg h429, if_neg hrs]
        exact ⟨_, rfl⟩
  · intro u p a calls c L r env n h429 hlt
    induction n with
    | zero => simp
    | succ k ih =>
      rw [List.replicate_succ, List.cons_append,
        paginationLoop_step u p a calls c L r _ hlt]
      simp only [if_pos h429]
      exact ih
  · intro u p a calls L env
    rw [paginationLoop.eq_def]
  · intro u p a calls c L env h
    rw [paginationLoop.eq_def]
    simp [not_lt.mpr h]

/-- Witness for `C1_pagination` at concrete inputs. -/
theorem C1_witness :
    (∃ tl, (paginationLoop "u" samplePayload "a" [] (some "abc") 2
        [sampleSearchResp]).2.2 =
      Event.request
        (Request.post "u" { samplePayload with cursor := some "abc" } "a") :: tl) ∧
    ((paginationLoop "u" samplePayload "a" [] (some "abc") 2
        (List.replicate 5 sample429 ++ [sampleSearchResp])).1 =
      (paginationLoop "u" samplePayload "a" [] (some "abc") 2
        [sampleSearchResp]).1) ∧
    paginationLoop "u" samplePayload "a" [sampleCall] none 2 [] =
      (.ok [sampleCall], [], []) ∧
    paginationLoop "u" samplePayload "a" [sampleCall, sampleCall] (some "x") 2 [] =
      (.ok [sampleCall, sampleCall], [], []) :=
  ⟨C1_pagination.1 "u" samplePayload "a" [] "abc" 2 sampleSearchResp [] (by decide),
   (C1_pagination.2.1 "u" samplePayload "a" [] "abc" 2 sample429
      [sampleSearchResp] 5 rfl (by decide)).1,
   C1_pagination.2.2.1 "u" samplePayload "a" [sampleCall] 2 [],
   C1_pagination.2.2.2 "u" samplePayload "a" [sampleCall, sampleCall] "x" 2 []
     (by decide)⟩

/-- **C2**, counterexample.  On a transcript fetch, after the three
retries are exhausted the still-failing 429 does not surface through
any raise-on-error check (contrary to the claim): the invocation
succeeds with no error and the sentinel snippet.  The trace shows all
five requests were issued (search plus four transcript attempts), so
the retries were indeed exhausted. -/
theorem C2_counterexample :
    (invoke sampleConfig sampleArgs
      [sampleSearchResp, sample429, sample429, sample429, sample429]).1.error
        = none ∧
    ((invoke sampleConfig sampleArgs
      [sampleSearchResp, sample429, sample429, sample429, sample429]).1.output.map
        (List.lookup "snippet")) = [some (JVal.s "No transcript available")] ∧
    countReqs (invoke sampleConfig sampleArgs
      [sampleSearchResp, sample429, sample429, sample429, sample429]).2 = 5 := by
  decide

/-- **C2** (amended).  On a 429 from the initial search request or a
transcript fetch, the adapter sleeps for the `Retry-After` value
(default 1 when absent), re-issues the identical request, and retries at
most 3 times; after retries are exhausted the last response is used
as-is.  A still-failing status surfaces through the raise-on-error check
for the search request only; a transcript fetch that still fails after
the retries does not raise — its call degrades to the sentinel
transcript (amendment: the original claim asserted the raise-on-error
surfacing for transcript fetches as well). -/
theorem C2_rate_limit_retry :
    (∀ req r env t, r.status = 429 → r.retryAfter = some t →
      ∃ tl, (retryLoop429 req r 0 env).2.2 = Event.sleep t :: tl) ∧
    (∀ req r env, r.status = 429 → r.retryAfter = none →
      ∃ tl, (retryLoop429 req r 0 env).2.2 = Event.sleep 1 :: tl) ∧
    (∀ req r rc env, ∀ e ∈ (retryLoop429 req r rc env).2.2,
      (∃ n, e = Event.sleep n) ∨ e = Event.request req) ∧
    (∀ req r rc env, countReqs (retryLoop429 req r rc env).2.2 ≤ 3 - rc) ∧
    (∀ req r0 r1 r2 r3 env, r0.status = 429 → r1.status = 429 →
      r2.status = 429 → r3.status = 429 →
      (issueWithRetry req (r0 :: r1 :: r2 :: r3 :: env)).1 = .ok r3 ∧
      (issueWithRetry req (r0 :: r1 :: r2 :: r3 :: env)).2.1 = env) ∧
    (∀ config args auth r0 r1 r2 r3 env, _get_auth_header config = .ok auth →
      r0.status = 429 → r1.status = 429 → r2.status = 429 → r3.status = 429 →
      (invoke config args (r0 :: r1 :: r2 :: r3 :: env)).1 =
        errorEnvelope (.httpError r3.status)) ∧
    (∀ b a call r0 r1 r2 r3 env, r0.status = 429 → r1.status = 429 →
      r2.status = 429 → r3.status = 429 →
      (processCall b a call (r0 :: r1 :: r2 :: r3 :: env)).1 =
        .ok (buildResult b call "No transcript available",
             buildSourceItem b call)) := by
  refine ⟨?_, ?_, ?_, ?_, ?_, ?_, ?_⟩
  · intro req r env t h429 ht
    rw [retryLoop429.eq_def]
    simp only [_handle_rate_limit, h429, ht]
    cases env <;> simp
  · intro req r env h429 ht
    rw [retryLoop429.eq_def]
    simp only [_handle_rate_limit, h429, ht]
    cases env <;> simp
  · intro req r rc env
    exact retryLoop429_events req env r rc
  · intro req r rc env
    induction env generalizing r rc with
    | nil =>
      rw [retryLoop429.eq_def]
      by_cases h429 : r.status = 429
      · by_cases hrc : rc < 3
        · simp [_handle_rate_limit, h429, hrc, countReqs, List.filter]
          omega
        · simp [_handle_rate_limit, h429, hrc, countReqs, List.filter]
      · simp [_handle_rate_limit, h429, countReqs, List.filter]
    | cons r' env' ih =>
      rw [retryLoop429.eq_def]
      by_cases h429 : r.status = 429
      · by_cases hrc : rc < 3
        · simp [_handle_rate_limit, h429, hrc, countReqs_sleep,
            countReqs_request]
          have h := ih r' (rc + 1)
          omega
        · simp [_handle_rate_limit, h429, hrc, countReqs, List.filter]
      · simp [_handle_rate_limit, h429, countReqs, List.filter]
  · exact issueWithRetry_four429
  · intro config args auth r0 r1 r2 r3 env hAuth h0 h1 h2 h3
    have hi := issueWithRetry_four429
      (Request.post ((config.gong_base_url.getD defaultBaseUrl) ++ "/v2/calls/search")
        (buildPayload (args.q.getD "") (_format_datetime args.from_date)
          (_format_datetime args.to_date) args.workspace_id (args.limit.getD 10))
        auth) r0 r1 r2 r3 env h0 h1 h2 h3
    have hrs : raisesForStatus r3.status = true := by
      rw [h3]; decide
    simp only [invoke, hAuth, hi.1, hrs]
    simp
  · intro b a call r0 r1 r2 r3 env h0 h1 h2 h3
    have hi := issueWithRetry_four429
      (Request.get (b ++ "/v2/calls/" ++ pyStr call.id ++ "/transcript") a)
      r0 r1 r2 r3 env h0 h1 h2 h3
    simp only [processCall, hi.1]
    simp [transcriptText, h3]

/-- Witness for `C2_rate_limit_retry` at concrete inputs. -/
theorem C2_witness :
    (∃ tl, (retryLoop429 (Request.get "u" "a") sample429 0 []).2.2 =
      Event.sleep 2 :: tl) ∧
    (∃ tl, (retryLoop429 (Request.get "u" "a") sample429NoHeader 0 []).2.2 =
      Event.sleep 1 :: tl) ∧
    countReqs (retryLoop429 (Request.get "u" "a") sample429 0
      [sample429, sample429, sample429, sample429]).2.2 ≤ 3 - 0 ∧
    (issueWithRetry (Request.get "u" "a")
      [sample429, sample429, sample429, sample429]).1 = .ok sample429 ∧
    (invoke sampleConfig sampleArgs
      [sample429, sample429, sample429, sample429]).1 =
      errorEnvelope (.httpError sample429.status) ∧
    (processCall defaultBaseUrl "a" sampleCall
      [sample429, sample429, sample429, sample429]).1 =
      .ok (buildResult defaultBaseUrl sampleCall "No transcript available",
           buildSourceItem defaultBaseUrl sampleCall) :=
  ⟨C2_rate_limit_retry.1 (Request.get "u" "a") sample429 [] 2 rfl rfl,
   C2_rate_limit_retry.2.1 (Request.get "u" "a") sample429NoHeader [] rfl rfl,
   C2_rate_limit_retry.2.2.2.1 (Request.get "u" "a") sample429 0
     [sample429, sample429, sample429, sample429],
   (C2_rate_limit_retry.2.2.2.2.1 (Request.get "u" "a")
     sample429 sample429 sample429 sample429 [] rfl rfl rfl rfl).1,
   C2_rate_limit_retry.2.2.2.2.2.1 sampleConfig sampleArgs "Bearer tok"
     sample429 sample429 sample429 sample429 [] rfl rfl rfl rfl rfl,
   C2_rate_limit_retry.2.2.2.2.2.2 defaultBaseUrl "a" sampleCall
     sample429 sample429 sample429 sample429 [] rfl rfl rfl rfl⟩

/-- **C6**.  A per-call transcript fetch that returns a non-success
status (directly, or still 429 after the bounded retries) leaves that
call's record in place with the literal sentinel snippet, does not fail
the request, and the remaining calls are processed independently on the
remaining environment. -/
theorem C6_transcript_non_success :
    (∀ b a call r env, r.status ≠ 200 → r.status ≠ 429 →
      (processCall b a call (r :: env)).1 =
        .ok (buildResult b call "No transcript available",
             buildSourceItem b call) ∧
      (processCall b a call (r :: env)).2.1 = env) ∧
    (∀ b a call r0 r1 r2 r3 env, r0.status = 429 → r1.status = 429 →
      r2.status = 429 → r3.status = 429 → r3.status ≠ 200 →
      (processCall b a call (r0 :: r1 :: r2 :: r3 :: env)).1 =
        .ok (buildResult b call "No transcript available",
             buildSourceItem b call)) ∧
    (∀ b call, List.lookup "snippet"
      (buildResult b call "No transcript available") =
      some (JVal.s "No transcript available")) ∧
    (∀ b a call rest env,
      (transcriptLoop b a (call :: rest) env).1 =
        match (processCall b a call env).1 with
        | .error e => .error e
        | .ok (record, item) =>
          match (transcriptLoop b a rest (processCall b a call env).2.1).1 with
          | .error e => .error e
          | .ok (recs, items) => .ok (record :: recs, item :: items)) := by
  refine ⟨?_, ?_, ?_, ?_⟩
  · intro b a call r env h200 h429
    have hi := issueWithRetry_no429
      (Request.get (b ++ "/v2/calls/" ++ pyStr call.id ++ "/transcript") a)
      r env h429
    refine ⟨?_, ?_⟩ <;>
      simp [processCall, hi.1, hi.2.1, transcriptText, h200]
  · intro b a call r0 r1 r2 r3 env h0 h1 h2 h3 h200
    have hi := issueWithRetry_four429
      (Request.get (b ++ "/v2/calls/" ++ pyStr call.id ++ "/transcript") a)
      r0 r1 r2 r3 env h0 h1 h2 h3
    simp only [processCall, hi.1]
    simp [transcriptText, h200]
  · intro b call
    rfl
  · intro b a call rest env
    rcases hp : (processCall b a call env).1 with e | ⟨record, item⟩ <;>
      simp only [transcriptLoop, hp]
    rcases ht : (transcriptLoop b a rest (processCall b a call env).2.1).1 with
      e | ⟨recs, items⟩ <;> simp only [ht]

/-- Witness for `C6_transcript_non_success` at concrete inputs. -/
theorem C6_witness :
    (processCall defaultBaseUrl "a" sampleCall [sample404]).1 =
      .ok (buildResult defaultBaseUrl sampleCall "No transcript available",
           buildSourceItem defaultBaseUrl sampleCall) ∧
    (processCall defaultBaseUrl "a" sampleCall
      [sample429, sample429, sample429, sample429]).1 =
      .ok (buildResult defaultBaseUrl sampleCall "No transcript available",
           buildSourceItem defaultBaseUrl sampleCall) ∧
    List.lookup "snippet"
      (buildResult defaultBaseUrl sampleCall "No transcript available") =
      some (JVal.s "No transcript available") :=
  ⟨(C6_transcript_non_success.1 defaultBaseUrl "a" sampleCall sample404 []
      (by decide) (by decide)).1,
   C6_transcript_non_success.2.1 defaultBaseUrl "a" sampleCall
     sample429 sample429 sample429 sample429 [] rfl rfl rfl rfl (by decide),
   C6_transcript_non_success.2.2.1 defaultBaseUrl sampleCall⟩

/-- **C7**, counterexample.  A transcript fetch that succeeds (HTTP 200)
with an empty segment list does not produce the sentinel: the joined
transcript is the empty string, so the record's snippet is `""`, not
`"No transcript available"`. -/
theorem C7_counterexample :
    (processCall defaultBaseUrl "Bearer tok" sampleCall
      [sampleEmptyTranscriptResp]).1 =
      .ok (buildResult defaultBaseUrl sampleCall "",
           buildSourceItem defaultBaseUrl sampleCall) ∧
    List.lookup "snippet" (buildResult defaultBaseUrl sampleCall "") =
      some (JVal.s "") ∧
    JVal.s "" ≠ JVal.s "No transcript available" :=
  ⟨rfl, by decide, by decide⟩

/-- **C7** (amended).  When a transcript fetch succeeds (HTTP 200) but
carries no usable transcript data (no segments, or only segments with
empty text), the call's transcript becomes the empty string — not the
sentinel used for failed fetches — its snippet is `""`, and no error
surfaces. -/
theorem C7_empty_transcript (b a : String) (call : Call) (r : HttpResponse)
    (env : List HttpResponse) (h200 : r.status = 200)
    (hseg : ∀ seg ∈ r.transcript, seg.text.getD "" = "") :
    (processCall b a call (r :: env)).1 =
      .ok (buildResult b call "", buildSourceItem b call) ∧
    List.lookup "snippet" (buildResult b call "") = some (JVal.s "") := by
  have h429 : r.status ≠ 429 := by rw [h200]; decide
  have hi := issueWithRetry_no429
    (Request.get (b ++ "/v2/calls/" ++ pyStr call.id ++ "/transcript") a)
    r env h429
  have htext : transcriptText r = "" := by
    simp only [transcriptText, h200]
    rw [if_pos trivial]
    rw [List.filterMap_eq_nil_iff.mpr]
    · rfl
    · intro seg hs
      simp [hseg seg hs]
  exact ⟨by simp [processCall, hi.1, htext], rfl⟩

/-- Witness for `C7_empty_transcript` at a concrete input. -/
theorem C7_witness :
    (processCall defaultBaseUrl "a" sampleCall [sampleEmptyTranscriptResp]).1 =
      .ok (buildResult defaultBaseUrl sampleCall "",
           buildSourceItem defaultBaseUrl sampleCall) ∧
    List.lookup "snippet" (buildResult defaultBaseUrl sampleCall "") =
      some (JVal.s "") :=
  C7_empty_transcript defaultBaseUrl "a" sampleCall sampleEmptyTranscriptResp []
    rfl (by decide)

/-- **C9**, counterexample.  A successful invocation returns a record
whose duration is stored under the key `duration`, not `durationSeconds`
as the claim states. -/
theorem C9_counterexample :
    (invoke sampleConfig sampleArgs
      [sampleSearchResp, sampleEmptyTranscriptResp]).1.error = none ∧
    (invoke sampleConfig sampleArgs
      [sampleSearchResp, sampleEmptyTranscriptResp]).1.output.map
        (List.lookup "durationSeconds") = [none] ∧
    (invoke sampleConfig sampleArgs
      [sampleSearchResp, sampleEmptyTranscriptResp]).1.output.map
        (List.lookup "duration") = [some (JVal.i 60)] := by
  decide

/-- **C9** (amended).  Every record of a successful output is a
`buildResult` with keys `callId, title, date, duration, parties,
snippet, url` (plus `context` iff the call carries content) — the
duration key is `duration`, not `durationSeconds`; the snippet is the
first 200 characters of the transcript followed by `"..."` when the
transcript exceeds 200 characters, else the transcript verbatim. -/
theorem C9_record_shape :
    (∀ b call t, (buildResult b call t).map Prod.fst =
      ["callId", "title", "date", "duration", "parties", "snippet", "url"] ++
        (if call.content.isSome then ["context"] else [])) ∧
    (∀ b call t, List.lookup "duration" (buildResult b call t) =
      some (JVal.i (call.duration.getD 0))) ∧
    (∀ b call t, 200 < pyLen t →
      List.lookup "snippet" (buildResult b call t) =
        some (JVal.s (pySliceStr t 200 ++ "..."))) ∧
    (∀ b call t, pyLen t ≤ 200 →
      List.lookup "snippet" (buildResult b call t) = some (JVal.s t)) ∧
    (∀ config args env rec, rec ∈ (invoke config args env).1.output →
      ∃ call t, rec = buildResult (config.gong_base_url.getD defaultBaseUrl) call t) := by
  have hsnip : ∀ b call t, List.lookup "snippet" (buildResult b call t) =
      some (JVal.s (if 200 < pyLen t then pySliceStr t 200 ++ "..." else t)) :=
    fun b call t => rfl
  refine ⟨?_, ?_, ?_, ?_, ?_⟩
  · intro b call t
    cases hc : call.content <;> simp [buildResult, hc]
  · intro b call t
    rfl
  · intro b call t h
    rw [hsnip, if_pos h]
  · intro b call t h
    rw [hsnip, if_neg (not_lt.mpr h)]
  · intro config args env rec hrec
    simp only [invoke] at hrec
    split at hrec
    · simp at hrec
    · split at hrec
      · rw [show ∀ e evs, ((errorEnvelope e, evs) :
            Envelope × List Event).1.output = [] from
            fun e _ => errorEnvelope_output e] at hrec
        simp at hrec
      · split at hrec
        · rw [show ∀ e evs, ((errorEnvelope e, evs) :
              Envelope × List Event).1.output = [] from
              fun e _ => errorEnvelope_output e] at hrec
          simp at hrec
        · split at hrec
          · rw [show ∀ e evs, ((errorEnvelope e, evs) :
                Envelope × List Event).1.output = [] from
                fun e _ => errorEnvelope_output e] at hrec
            simp at hrec
          · split at hrec
            · rw [show ∀ e evs, ((errorEnvelope e, evs) :
                  Envelope × List Event).1.output = [] from
                  fun e _ => errorEnvelope_output e] at hrec
              simp at hrec
            · rename_i results source_items heq
              rcases transcriptLoop_mem _ _ _ _ _ _ heq rec hrec with
                ⟨call, t, _, hrt⟩
              exact ⟨call, t, hrt⟩

set_option maxRecDepth 8000 in
/-- Witness for `C9_record_shape` at concrete inputs. -/
theorem C9_witness :
    List.lookup "duration" (buildResult defaultBaseUrl sampleCall shortTranscript) =
      some (JVal.i (sampleCall.duration.getD 0)) ∧
    List.lookup "snippet" (buildResult defaultBaseUrl sampleCall longTranscript) =
      some (JVal.s (pySliceStr longTranscript 200 ++ "...")) ∧
    List.lookup "snippet" (buildResult defaultBaseUrl sampleCall shortTranscript) =
      some (JVal.s shortTranscript) :=
  ⟨C9_record_shape.2.1 defaultBaseUrl sampleCall shortTranscript,
   C9_record_shape.2.2.1 defaultBaseUrl sampleCall longTranscript (by decide),
   C9_record_shape.2.2.2.1 defaultBaseUrl sampleCall shortTranscript
     (by decide)⟩

/-- **C10**.  A missing `q` behaves exactly like an empty `q`: the
invocation result and trace are identical, no validation error occurs,
and the search request is issued with `keywords` set to `""`. -/
theorem C10_missing_query :
    (∀ config fd td l w env,
      invoke config { q := none, from_date := fd, to_date := td,
                      limit := l, workspace_id := w } env =
      invoke config { q := some "", from_date := fd, to_date := td,
                      limit := l, workspace_id := w } env) ∧
    (∀ config args env auth, args.q = none →
      _get_auth_header config = .ok auth →
      ∃ pl tl, (invoke config args env).2 =
        Event.request (Request.post
          ((config.gong_base_url.getD defaultBaseUrl) ++ "/v2/calls/search")
          pl auth) :: tl ∧
        pl.filter.keywords = "") := by
  constructor
  · intro config fd td l w env
    rfl
  · intro config args env auth hq hAuth
    obtain ⟨tl, htl⟩ := (invoke_trace config args env auth hAuth).1
    refine ⟨_, tl, htl, ?_⟩
    simp [buildPayload, hq]

/-- Witness for `C10_missing_query` at concrete inputs. -/
theorem C10_witness :
    invoke sampleConfig sampleArgsNoQ [] =
      invoke sampleConfig { sampleArgsNoQ with q := some "" } [] ∧
    ∃ pl tl, (invoke sampleConfig sampleArgsNoQ []).2 =
      Event.request (Request.post
        ((sampleConfig.gong_base_url.getD defaultBaseUrl) ++ "/v2/calls/search")
        pl "Bearer tok") :: tl ∧
      pl.filter.keywords = "" :=
  ⟨C10_missing_query.1 sampleConfig none none (some 2) none [],
   C10_missing_query.2 sampleConfig sampleArgsNoQ [] "Bearer tok" rfl rfl⟩

end Gong
